import Mathlib

/-!
Shallow embedding of the credential and reset-token lifecycle of the
Coffeedoor backend (src/models/UserModel.js schema, the UserService class,
and src/error/apiError.js), together with theorems checking the
natural-language specification against it.

The document database is modelled as an in-memory list of user records and
a list of order records.  Every service method is embedded as a state-passing
function `args → DB → Except ApiError α × DB`: a thrown `ApiError` becomes
the `.error` branch, and the returned `DB` is the store as left behind by the
call (updates performed before a throw persist, as they do against a real
store).  Non-deterministic inputs of the source — the current time
`Date.now()`, the bcrypt salt, the `crypto.randomBytes` output and the mail
transport outcome — are passed in as explicit parameters.
-/

set_option autoImplicit false

namespace Coffeedoor

/-- Error record mirroring `src/error/apiError.js`: a status code and a message. -/
structure ApiError where
  status : Nat
  message : String
  deriving DecidableEq, Repr

def ApiError.badRequest (m : String) : ApiError := ⟨400, m⟩

def ApiError.forbidden (m : String) : ApiError := ⟨403, m⟩

def ApiError.notFound (m : String) : ApiError := ⟨404, m⟩

def ApiError.invalidValue (m : String) : ApiError := ⟨422, m⟩

def ApiError.internalError (m : String) : ApiError := ⟨500, m⟩

/-- A stored credential hash as kept in the `passwordHash` field.
`empty` stands for the empty string (falsy in JS, like a missing field). -/
inductive StoredHash where
  | empty : StoredHash
  | hashed (salt : Nat) (secret : String) : StoredHash
  deriving DecidableEq, Repr

/-- Modelled from the spec: the Credential Hasher (spec section 4.1).  The source
delegates hashing to the external `bcrypt` dependency (`bcrypt.genSalt(5)` then
`bcrypt.hash`), which is not part of this repository; the model keeps the salt
and the secret so that `verify` can be stated.  Mirrors the source helper
`createPasswordHash`. -/
def createPasswordHash (salt : Nat) (password : String) : StoredHash :=
  .hashed salt password

/-- Modelled from the spec: credential verification (spec section 4.1), the
`bcrypt.compare` call of the source.  Per the spec the verifier "must tolerate
empty/missing hashedForm by returning `false` (no password set) rather than
throwing for that specific condition". -/
def bcryptCompare (password : String) (h : Option StoredHash) : Bool :=
  match h with
  | none => false
  | some .empty => false
  | some (.hashed _ secret) => password == secret

/-- JS truthiness of the stored `passwordHash` field, as tested by
`if (user.passwordHash)`: `undefined` and the empty string are falsy. -/
def truthyHash (h : Option StoredHash) : Bool :=
  match h with
  | none => false
  | some .empty => false
  | some (.hashed _ _) => true

/-- A user document of the `User` collection (schema of `src/models/UserModel.js`
plus the dynamic reset fields written by the service).  The `reset.token` /
`reset.expire` subdocument written by `resetPassword` and queried by
`setNewPassword` is flattened to `resetToken` / `resetExpire`; the distinct
`resetPassword.*` paths written by `setNewPassword`'s update are flattened to
`resetPasswordToken` / `resetPasswordExpire` / `resetPasswordModified`.
Timestamps are milliseconds as returned by `Date.now()`. -/
structure User where
  _id : Nat
  userName : Option String := none
  phone : Option String := none
  address : Option String := none
  email : Option String := none
  role : String := "customer"
  passwordHash : Option StoredHash := none
  avatarURL : Option String := none
  resetToken : Option String := none
  resetExpire : Option Int := none
  resetPasswordToken : Option String := none
  resetPasswordExpire : Option Int := none
  resetPasswordModified : Option Int := none
  deriving DecidableEq, Repr

/-- An order document; only the `userId` reference matters to `deleteUser`. -/
structure Order where
  _id : Nat
  userId : Nat
  deriving DecidableEq, Repr

/-- The persistent store: the `User` collection, the `Order` collection, and a
counter supplying fresh `_id` values on create. -/
structure DB where
  users : List User
  orders : List Order
  nextId : Nat
  deriving DecidableEq, Repr

/-! ### Store primitives (MongoDB operations used by the service) -/

/-- `findOneAndUpdate(query, update)`: update the first matching document and
return it post-update (`returnDocument: 'after'`), or signal no match. -/
def findOneAndUpdate (p : User → Bool) (f : User → User) :
    List User → Option User × List User
  | [] => (none, [])
  | u :: us =>
    if p u then (some (f u), f u :: us)
    else
      let r := findOneAndUpdate p f us
      (r.1, u :: r.2)

/-- `deleteOne(query)`: remove the first matching document, returning the
deleted count. -/
def deleteOne (p : User → Bool) : List User → Nat × List User
  | [] => (0, [])
  | u :: us =>
    if p u then (1, us)
    else
      let r := deleteOne p us
      (r.1, u :: r.2)

/-- `deleteMany(query)` on the `Order` collection: remove every matching
document, returning the deleted count. -/
def deleteMany (p : Order → Bool) (os : List Order) : Nat × List Order :=
  ((os.filter p).length, os.filter (fun o => !p o))

/-! ### Query predicates -/

/-- The query `{ phone }`. -/
def byPhone (phone : String) (u : User) : Bool := u.phone == some phone

/-- The query `{ email }`. -/
def byEmail (email : String) (u : User) : Bool := u.email == some email

/-- The query `{ _id }`. -/
def byId (id : Nat) (u : User) : Bool := u._id == id

/-- The query of `setNewPassword`:
`{ 'reset.token': token, 'reset.expire': { $gt: Date.now() } }`. -/
def byResetToken (token : String) (now : Int) (u : User) : Bool :=
  u.resetToken == some token &&
    match u.resetExpire with
    | some e => now < e
    | none => false

/-! ### Session token and small helpers -/

/-- The JWT issued by `generateToken`: signs the user id, `expiresIn: "2d"`. -/
structure SessionToken where
  sub : Nat
  expiresInDays : Nat
  deriving DecidableEq, Repr

def generateToken (id : Nat) : SessionToken := ⟨id, 2⟩

/-- JS template-literal rendering of a possibly `undefined` string. -/
def jsShow : Option String → String
  | some s => s
  | none => "undefined"

/-- Modelled from the spec: `src/utils/findUserById.js` is imported by the
service but is not under `src/`; per spec section 4.3, "All lookups used for
authorization (e.g. by id, for password confirm/update) fail with `NotFound`
if no record matches". -/
def findUserById (id : Nat) (users : List User) : Except ApiError User :=
  match users.find? (byId id) with
  | some u => .ok u
  | none => .error (ApiError.notFound "Can't find user")

/-! ### Hex rendering of random bytes (`buffer.toString('hex')`) -/

/-- Lowercase hexadecimal digit for a nibble. -/
def hexDigitChar (n : Nat) : Char :=
  if n < 10 then Char.ofNat (48 + n) else Char.ofNat (87 + n)

/-- Hex characters of a byte list, two characters per byte, high nibble first. -/
def bytesToHexChars (bs : List Nat) : List Char :=
  bs.foldr (fun b acc => hexDigitChar (b / 16) :: hexDigitChar (b % 16) :: acc) []

/-- `Buffer.toString('hex')` on the bytes produced by `crypto.randomBytes`. -/
def bytesToHex (bs : List Nat) : String :=
  String.mk (bytesToHexChars bs)

/-- A hexadecimal character: a decimal digit or a lowercase `a`-`f`. -/
def isHexChar (c : Char) : Bool :=
  c.isDigit || ('a' ≤ c && c ≤ 'f')

/-! ### Result shapes returned by the service methods -/

/-- The registration payload destructured by `rawRegister`. -/
structure RegisterData where
  phone : String
  userName : Option String := none
  address : Option String := none
  deriving DecidableEq, Repr

/-- The result of `login`: the user, a session token when one was issued, and
a message.  The no-password branch of the source returns `{user, message}`
with no token, modelled as `token := none`. -/
structure LoginResult where
  user : User
  token : Option SessionToken
  message : String
  deriving DecidableEq, Repr

/-- Mail transport delivery metadata (`{response, accepted}`). -/
structure MailStatus where
  response : String
  accepted : List String
  deriving DecidableEq, Repr

/-- The result of `resetPassword`: the transport response and a message. -/
structure ResetRequestResult where
  status : String
  message : String
  deriving DecidableEq, Repr

/-- The `{status, message}` result of `setNewPassword`, `confirmPassword` and
`updatePassword`. -/
structure StatusResult where
  status : Bool
  message : String
  deriving DecidableEq, Repr

/-- The profile-update payload destructured by `updateProfile`; a missing key
of the JS body is `none`. -/
structure ProfileBody where
  userName : Option String := none
  email : Option String := none
  address : Option String := none
  deriving DecidableEq, Repr

/-- The `{user, message}` result of `updateProfile`. -/
structure ProfileResult where
  user : User
  message : String
  deriving DecidableEq, Repr

/-- A MongoDB deletion outcome, reduced to its `deletedCount`. -/
structure DeleteStatus where
  deletedCount : Nat
  deriving DecidableEq, Repr

/-- The `{orderStatus, userStatus}` result of `deleteUser`. -/
structure DeleteResult where
  orderStatus : DeleteStatus
  userStatus : DeleteStatus
  deriving DecidableEq, Repr

/-! ### The service operations (`UserService` of the source) -/

/-- `UserService.rawRegister`: look up by phone; if found, return the existing
user untouched, otherwise create a phone-only account.  The source's
`if (!user) throw internalError` guard after `create` cannot fire in the
model, since `create` always yields the new document. -/
def rawRegister (data : RegisterData) (db : DB) : Except ApiError User × DB :=
  match db.users.find? (byPhone data.phone) with
  | some user => (.ok user, db)
  | none =>
    let user : User :=
      { _id := db.nextId, userName := data.userName,
        phone := some data.phone, address := data.address }
    (.ok user, { db with users := db.users ++ [user], nextId := db.nextId + 1 })

/-- `UserService.login`: `NotFound` when no account matches the phone; when the
account's `passwordHash` is falsy, return the special no-password result;
otherwise verify and either fail `BadRequest` or issue a session token. -/
def login (phone password : String) (db : DB) :
    Except ApiError LoginResult × DB :=
  match db.users.find? (byPhone phone) with
  | none => (.error (ApiError.notFound "Can't find user"), db)
  | some user =>
    if truthyHash user.passwordHash then
      if bcryptCompare password user.passwordHash then
        (.ok ⟨user, some (generateToken user._id),
          "User " ++ jsShow user.userName ++ " successfully logged"⟩, db)
      else
        (.error (ApiError.badRequest "Incorrect login or password"), db)
    else
      (.ok ⟨user, none,
        "You don't have password yet. Please, set the new one"⟩, db)

/-- `UserService.resetPassword`: `NotFound` on unknown email; otherwise store a
fresh token (`crypto.randomBytes(16)` rendered as hex) with expiry
`Date.now() + 3600 * 1000`, then delegate to the mail transport; a transport
failure is re-wrapped as `InvalidValue` (after the store write).  The random
bytes and the transport outcome are passed in as parameters.  The source's
`if (!buffer)` guard cannot fire in the model. -/
def resetPassword (email : String) (now : Int) (randomBytes : List Nat)
    (mailResult : Except String MailStatus) (db : DB) :
    Except ApiError ResetRequestResult × DB :=
  match db.users.find? (byEmail email) with
  | none => (.error (ApiError.notFound "Can't find user with this email"), db)
  | some _ =>
    let token := bytesToHex randomBytes
    let r := findOneAndUpdate (byEmail email)
      (fun u => { u with resetToken := some token,
                         resetExpire := some (now + 3600 * 1000) })
      db.users
    let db' : DB := { db with users := r.2 }
    match r.1 with
    | none => (.error (ApiError.forbidden "Modified forbidden"), db')
    | some _ =>
      match mailResult with
      | .ok status =>
        (.ok ⟨status.response,
          "Email successfully sent to " ++ String.intercalate "," status.accepted⟩, db')
      | .error msg =>
        (.error (ApiError.invalidValue (if msg == "" then "Can't send mail" else msg)), db')

/-- `UserService.setNewPassword`: one conditional update matching
`{'reset.token': token, 'reset.expire': {$gt: Date.now()}}`.  Its `$set`
writes the new `passwordHash` and nulls the `resetPassword.*` paths — note
that these differ from the queried `reset.*` paths, so `resetToken` and
`resetExpire` are left untouched, exactly as in the source.  No match fails
`Forbidden`. -/
def setNewPassword (token password : String) (now : Int) (salt : Nat)
    (db : DB) : Except ApiError StatusResult × DB :=
  let passwordHash := createPasswordHash salt password
  let r := findOneAndUpdate (byResetToken token now)
    (fun u => { u with passwordHash := some passwordHash,
                       resetPasswordToken := none,
                       resetPasswordExpire := none,
                       resetPasswordModified := some now })
    db.users
  let db' : DB := { db with users := r.2 }
  match r.1 with
  | none => (.error (ApiError.forbidden "Modified forbidden"), db')
  | some _ => (.ok ⟨true, "New password successfully setted"⟩, db')

/-- `UserService.confirmPassword`: authorize by id (`findUserById`), then
verify the password against the stored hash; mismatch fails `BadRequest`. -/
def confirmPassword (password : String) (id : Nat) (db : DB) :
    Except ApiError StatusResult × DB :=
  match findUserById id db.users with
  | .error e => (.error e, db)
  | .ok user =>
    if bcryptCompare password user.passwordHash then
      (.ok ⟨true, "Password confirmed"⟩, db)
    else
      (.error (ApiError.badRequest "Wrong password!"), db)

/-- `UserService.updatePassword`: empty input fails `BadRequest "No data!"`;
a password that still verifies against the stored hash fails
`BadRequest "The same password!"`; otherwise hash and commit via a
conditional update on `_id`. -/
def updatePassword (password : String) (id : Nat) (salt : Nat) (db : DB) :
    Except ApiError StatusResult × DB :=
  if password == "" then (.error (ApiError.badRequest "No data!"), db)
  else
    match findUserById id db.users with
    | .error e => (.error e, db)
    | .ok user =>
      if bcryptCompare password user.passwordHash then
        (.error (ApiError.badRequest "The same password!"), db)
      else
        let passwordHash := createPasswordHash salt password
        let r := findOneAndUpdate (byId id)
          (fun u => { u with passwordHash := some passwordHash }) db.users
        let db' : DB := { db with users := r.2 }
        match r.1 with
        | none => (.error (ApiError.forbidden "Modified forbidden"), db')
        | some u' =>
          (.ok ⟨true, "User " ++ jsShow u'.userName ++ " successfully updated"⟩, db')

/-- `UserService.updateProfile`: a missing body fails `BadRequest "No data!"`;
otherwise one conditional update on `_id` `$set`s exactly `userName`, `email`
and `address` to the destructured body values (a key absent from the body is
`undefined`, serialized as `null` by the driver: modelled as `none`); no
matching record fails `Forbidden`. -/
def updateProfile (body : Option ProfileBody) (id : Nat) (db : DB) :
    Except ApiError ProfileResult × DB :=
  match body with
  | none => (.error (ApiError.badRequest "No data!"), db)
  | some b =>
    let r := findOneAndUpdate (byId id)
      (fun u => { u with userName := b.userName, email := b.email,
                         address := b.address })
      db.users
    let db' : DB := { db with users := r.2 }
    match r.1 with
    | none => (.error (ApiError.forbidden "Modified forbidden"), db')
    | some u' =>
      (.ok ⟨u', "User " ++ jsShow u'.userName ++ " successfully updated"⟩, db')

/-- `UserService.deleteUser`: authorize by id (`findUserById`, failing
`NotFound` before anything is touched), then delete every order whose
`userId` references the account and the account record itself, returning
both deletion outcomes. -/
def deleteUser (id : Nat) (db : DB) : Except ApiError DeleteResult × DB :=
  match findUserById id db.users with
  | .error e => (.error e, db)
  | .ok _ =>
    let os := deleteMany (fun o => o.userId == id) db.orders
    let us := deleteOne (byId id) db.users
    (.ok ⟨⟨os.1⟩, ⟨us.1⟩⟩, { db with users := us.2, orders := os.2 })

/-! ### Lemmas about the store primitives -/

theorem findOneAndUpdate_of_no_match {p : User → Bool} {f : User → User} :
    ∀ us : List User, (∀ u ∈ us, p u = false) →
      findOneAndUpdate p f us = (none, us) := by
  intro us
  induction us with
  | nil => intro _; rfl
  | cons v vs ih =>
    intro h
    have hv : p v = false := h v (List.mem_cons_self v vs)
    have ih' := ih fun u hu => h u (List.mem_cons_of_mem v hu)
    simp [findOneAndUpdate, hv, ih']

theorem find?_eq_some_split {p : User → Bool} :
    ∀ {us : List User} {u : User}, us.find? p = some u →
      ∃ pre post, us = pre ++ u :: post ∧ (∀ x ∈ pre, p x = false) ∧ p u = true := by
  intro us
  induction us with
  | nil => intro u h; simp at h
  | cons v vs ih =>
    intro u h
    by_cases hv : p v
    · rw [List.find?_cons_of_pos _ hv] at h
      refine ⟨[], vs, ?_, ?_, ?_⟩ <;> simp_all
    · rw [List.find?_cons_of_neg _ hv] at h
      obtain ⟨pre, post, hsplit, hpre, hu⟩ := ih h
      refine ⟨v :: pre, post, by simp [hsplit], ?_, hu⟩
      intro x hx
      rcases List.mem_cons.mp hx with hx | hx
      · simpa [hx] using eq_false_of_ne_true hv
      · exact hpre x hx

theorem findOneAndUpdate_split {p : User → Bool} {f : User → User}
    {x : User} (post : List User) :
    ∀ pre : List User, (∀ y ∈ pre, p y = false) → p x = true →
      findOneAndUpdate p f (pre ++ x :: post) = (some (f x), pre ++ f x :: post) := by
  intro pre
  induction pre with
  | nil => intro _ hx; simp [findOneAndUpdate, hx]
  | cons v vs ih =>
    intro h hx
    have hv : p v = false := h v (List.mem_cons_self v vs)
    have ih' := ih (fun y hy => h y (List.mem_cons_of_mem v hy)) hx
    simp [findOneAndUpdate, hv, ih']

theorem find?_split {p : User → Bool} {x : User} (post : List User) :
    ∀ pre : List User, (∀ y ∈ pre, p y = false) → p x = true →
      (pre ++ x :: post).find? p = some x := by
  intro pre
  induction pre with
  | nil => intro _ hx; simp [List.find?_cons_of_pos _ hx]
  | cons v vs ih =>
    intro h hx
    have hv : p v = false := h v (List.mem_cons_self v vs)
    have ih' := ih (fun y hy => h y (List.mem_cons_of_mem v hy)) hx
    simpa [List.find?_cons_of_neg, hv] using ih'

theorem deleteOne_split {p : User → Bool} {x : User} (post : List User) :
    ∀ pre : List User, (∀ y ∈ pre, p y = false) → p x = true →
      deleteOne p (pre ++ x :: post) = (1, pre ++ post) := by
  intro pre
  induction pre with
  | nil => intro _ hx; simp [deleteOne, hx]
  | cons v vs ih =>
    intro h hx
    have hv : p v = false := h v (List.mem_cons_self v vs)
    have ih' := ih (fun y hy => h y (List.mem_cons_of_mem v hy)) hx
    simp [deleteOne, hv, ih']

/-! ### Lemmas about the hex rendering -/

theorem bytesToHexChars_length :
    ∀ bs : List Nat, (bytesToHexChars bs).length = 2 * bs.length := by
  intro bs
  induction bs with
  | nil => rfl
  | cons b bs ih =>
    simp [bytesToHexChars] at ih ⊢
    omega

theorem bytesToHex_length (bs : List Nat) :
    (bytesToHex bs).length = 2 * bs.length :=
  bytesToHexChars_length bs

theorem hexDigitChar_isHex {n : Nat} (h : n < 16) :
    isHexChar (hexDigitChar n) = true := by
  interval_cases n <;> decide

theorem bytesToHexChars_all_hex :
    ∀ bs : List Nat, (∀ b ∈ bs, b < 256) →
      ∀ c ∈ bytesToHexChars bs, isHexChar c = true := by
  intro bs
  induction bs with
  | nil => intro _ c hc; simp [bytesToHexChars] at hc
  | cons b bs ih =>
    intro h c hc
    have hb : b < 256 := h b (List.mem_cons_self b bs)
    have hrest := ih fun x hx => h x (List.mem_cons_of_mem b hx)
    rcases List.mem_cons.mp hc with hc | hc'
    · rw [hc]
      exact hexDigitChar_isHex (by omega)
    · rcases List.mem_cons.mp hc' with hc' | hc'
      · rw [hc']
        exact hexDigitChar_isHex (Nat.mod_lt _ (by omega))
      · exact hrest c hc'

/-! ### Concrete fixtures -/

/-- An account with a pending, unexpired reset (`reset.token` = "00ff",
`reset.expire` = 5000 ms). -/
def pendingResetUser : User :=
  { _id := 1, email := some "a@b.com", resetToken := some "00ff",
    resetExpire := some 5000 }

def pendingResetDB : DB := ⟨[pendingResetUser], [], 2⟩

/-- A store whose only pending reset carries a different token than "aaaa". -/
def wrongTokenDB : DB :=
  ⟨[{ _id := 1, resetToken := some "beef", resetExpire := some 99999 }], [], 2⟩

/-- A store whose only pending reset carries token "aaaa" already expired at
time 100. -/
def expiredTokenDB : DB :=
  ⟨[{ _id := 2, resetToken := some "aaaa", resetExpire := some 50 }], [], 3⟩

/-! ### C1: reset tokens are not single-use in the code -/

/-- C1: the claim says that after a successful `setNewPassword` the stored
reset token is cleared, so a second call with the same token fails
`Forbidden`.  Evaluating the embedded code refutes this: the first
consumption of token "00ff" succeeds, yet the stored `reset.token` is still
"00ff" afterwards (the update nulls the distinct `resetPassword.*` paths,
not the queried `reset.*` paths), and a second consumption with the very
same token succeeds again instead of failing. -/
theorem setNewPassword_token_reusable :
    (setNewPassword "00ff" "pw1" 100 5 pendingResetDB).1 =
      .ok ⟨true, "New password successfully setted"⟩ ∧
    ((setNewPassword "00ff" "pw1" 100 5 pendingResetDB).2.users.map
      User.resetToken) = [some "00ff"] ∧
    (setNewPassword "00ff" "pw2" 200 5
      (setNewPassword "00ff" "pw1" 100 5 pendingResetDB).2).1 =
      .ok ⟨true, "New password successfully setted"⟩ := by
  refine ⟨rfl, rfl, rfl⟩

/-! ### C2: wrong token and expired token fail with one identical error -/

/-- C2: whenever no stored account matches the token-and-unexpired predicate
of `setNewPassword` — whether the token is wrong or expired — the call fails
`Forbidden "Modified forbidden"`, and any two such calls (for instance one
with a wrong token and one with an expired token) produce the identical
observable error. -/
theorem setNewPassword_no_match_same_error
    (token pw1 pw2 : String) (now1 now2 : Int) (salt1 salt2 : Nat)
    (db1 db2 : DB)
    (h1 : ∀ u ∈ db1.users, byResetToken token now1 u = false)
    (h2 : ∀ u ∈ db2.users, byResetToken token now2 u = false) :
    (setNewPassword token pw1 now1 salt1 db1).1 =
      .error (ApiError.forbidden "Modified forbidden") ∧
    (setNewPassword token pw1 now1 salt1 db1).1 =
      (setNewPassword token pw2 now2 salt2 db2).1 := by
  have e1 := findOneAndUpdate_of_no_match
    (f := fun u => { u with passwordHash := some (createPasswordHash salt1 pw1),
                            resetPasswordToken := none,
                            resetPasswordExpire := none,
                            resetPasswordModified := some now1 })
    db1.users h1
  have e2 := findOneAndUpdate_of_no_match
    (f := fun u => { u with passwordHash := some (createPasswordHash salt2 pw2),
                            resetPasswordToken := none,
                            resetPasswordExpire := none,
                            resetPasswordModified := some now2 })
    db2.users h2
  simp [setNewPassword, e1, e2]

/-- Witness for C2 at a concrete input: token "aaaa" is wrong for
`wrongTokenDB` and expired for `expiredTokenDB` at time 100; both calls fail
with the identical `Forbidden` error. -/
theorem setNewPassword_no_match_same_error_witness :
    (setNewPassword "aaaa" "pw1" 100 5 wrongTokenDB).1 =
      .error (ApiError.forbidden "Modified forbidden") ∧
    (setNewPassword "aaaa" "pw1" 100 5 wrongTokenDB).1 =
      (setNewPassword "aaaa" "pw2" 100 6 expiredTokenDB).1 :=
  setNewPassword_no_match_same_error "aaaa" "pw1" "pw2" 100 100 5 6
    wrongTokenDB expiredTokenDB (by decide) (by decide)

/-! ### C10: a failed `setNewPassword` modifies no account -/

/-- C10: when `setNewPassword` fails `Forbidden` because no account matches
the token-and-unexpired predicate, the store is returned exactly as it was:
no `passwordHash` and no reset field of any account changes. -/
theorem setNewPassword_no_match_preserves_state
    (token pw : String) (now : Int) (salt : Nat) (db : DB)
    (h : ∀ u ∈ db.users, byResetToken token now u = false) :
    setNewPassword token pw now salt db =
      (.error (ApiError.forbidden "Modified forbidden"), db) := by
  have e := findOneAndUpdate_of_no_match
    (f := fun u => { u with passwordHash := some (createPasswordHash salt pw),
                            resetPasswordToken := none,
                            resetPasswordExpire := none,
                            resetPasswordModified := some now })
    db.users h
  simp [setNewPassword, e]

/-- Witness for C10 at a concrete input: consuming the expired token "aaaa"
leaves `expiredTokenDB` untouched. -/
theorem setNewPassword_no_match_preserves_state_witness :
    setNewPassword "aaaa" "npw" 100 5 expiredTokenDB =
      (.error (ApiError.forbidden "Modified forbidden"), expiredTokenDB) :=
  setNewPassword_no_match_preserves_state "aaaa" "npw" 100 5 expiredTokenDB
    (by decide)

/-! ### C3: a missing or empty stored hash verifies as a wrong password -/

/-- An existing account that has no stored password hash. -/
def noHashUser : User := { _id := 7, phone := some "+1000" }

def noHashDB : DB := ⟨[noHashUser], [], 8⟩

/-- C3: for an account whose stored `passwordHash` is missing or empty,
credential verification returns `false` rather than throwing, and
`confirmPassword` on such an account fails exactly
`BadRequest "Wrong password!"`. -/
theorem confirmPassword_missing_hash (pw : String) (id : Nat) (db : DB)
    (u : User) (hfind : db.users.find? (byId id) = some u)
    (hhash : u.passwordHash = none ∨ u.passwordHash = some .empty) :
    bcryptCompare pw u.passwordHash = false ∧
    confirmPassword pw id db =
      (.error (ApiError.badRequest "Wrong password!"), db) := by
  have hcmp : bcryptCompare pw u.passwordHash = false := by
    rcases hhash with h | h <;> simp [bcryptCompare, h]
  exact ⟨hcmp, by simp [confirmPassword, findUserById, hfind, hcmp]⟩

/-- Witness for C3 at a concrete input: `confirmPassword` against the account
with no stored hash fails `BadRequest "Wrong password!"`. -/
theorem confirmPassword_missing_hash_witness :
    confirmPassword "secret" 7 noHashDB =
      (.error (ApiError.badRequest "Wrong password!"), noHashDB) :=
  (confirmPassword_missing_hash "secret" 7 noHashDB noHashUser rfl
    (Or.inl rfl)).2

/-! ### C4: `rawRegister` is an idempotent lookup-or-create -/

/-- An account already registered under phone "+1000". -/
def phone1000User : User :=
  { _id := 3, phone := some "+1000", userName := some "Ann" }

def phone1000DB : DB := ⟨[phone1000User], [], 4⟩

/-- C4: when an account with the given phone already exists, `rawRegister`
returns it unchanged with the store untouched (not an error); and for every
store, two consecutive `rawRegister` calls with the same phone return the
same account (in particular the same id) both times, the second leaving the
store unchanged. -/
theorem rawRegister_idempotent (data : RegisterData) (db : DB) :
    (∀ u, db.users.find? (byPhone data.phone) = some u →
        rawRegister data db = (.ok u, db)) ∧
    ∃ u₁ db₁, rawRegister data db = (.ok u₁, db₁) ∧
      rawRegister data db₁ = (.ok u₁, db₁) := by
  constructor
  · intro u hu
    simp [rawRegister, hu]
  · cases h : db.users.find? (byPhone data.phone) with
    | some u => exact ⟨u, db, by simp [rawRegister, h], by simp [rawRegister, h]⟩
    | none =>
      refine ⟨{ _id := db.nextId, userName := data.userName,
                phone := some data.phone, address := data.address },
              { db with
                users := db.users ++
                  [{ _id := db.nextId, userName := data.userName,
                     phone := some data.phone, address := data.address }],
                nextId := db.nextId + 1 },
              by simp [rawRegister, h], ?_⟩
      simp [rawRegister, h, byPhone]

/-- Witness for C4 at a concrete input: registering phone "+1000" again
returns the already-stored account — its fields (name "Ann") untouched —
and leaves the store unchanged. -/
theorem rawRegister_idempotent_witness :
    rawRegister ⟨"+1000", some "Bob", none⟩ phone1000DB =
      (.ok phone1000User, phone1000DB) :=
  (rawRegister_idempotent ⟨"+1000", some "Bob", none⟩ phone1000DB).1
    phone1000User rfl

/-! ### C5: login on a phone-only account, and the only error cases -/

/-- C5: a `login` that matches an account with no credential hash returns the
special no-password result and does not fail; `login` fails `NotFound`
exactly when no account matches the phone; and it fails `BadRequest` only
when a (truthy) hash exists and verification fails. -/
theorem login_cases (phone pw : String) (db : DB) :
    (∀ u, db.users.find? (byPhone phone) = some u →
        truthyHash u.passwordHash = false →
        login phone pw db =
          (.ok ⟨u, none, "You don't have password yet. Please, set the new one"⟩,
            db)) ∧
    ((login phone pw db).1 = .error (ApiError.notFound "Can't find user") ↔
        db.users.find? (byPhone phone) = none) ∧
    (∀ m, (login phone pw db).1 = .error (ApiError.badRequest m) →
        ∃ u, db.users.find? (byPhone phone) = some u ∧
          truthyHash u.passwordHash = true ∧
          bcryptCompare pw u.passwordHash = false) := by
  refine ⟨?_, ?_, ?_⟩
  · intro u hu hhash
    simp [login, hu, hhash]
  · cases h : db.users.find? (byPhone phone) with
    | none => simp [login, h]
    | some u =>
      by_cases ht : truthyHash u.passwordHash
      · by_cases hc : bcryptCompare pw u.passwordHash
        · simp [login, h, ht, hc]
        · simp [login, h, ht, hc, ApiError.badRequest, ApiError.notFound]
      · simp [login, h, ht]
  · intro m hm
    cases h : db.users.find? (byPhone phone) with
    | none =>
      simp [login, h, ApiError.notFound, ApiError.badRequest] at hm
    | some u =>
      by_cases ht : truthyHash u.passwordHash
      · by_cases hc : bcryptCompare pw u.passwordHash
        · simp [login, h, ht, hc] at hm
        · exact ⟨u, rfl, by simpa using ht, by simpa using hc⟩
      · simp [login, h, ht] at hm

/-- Witness for C5 at a concrete input: logging in with phone "+1000",
whose account has no stored hash, yields the no-password result. -/
theorem login_cases_witness :
    login "+1000" "whatever" noHashDB =
      (.ok ⟨noHashUser, none,
        "You don't have password yet. Please, set the new one"⟩, noHashDB) :=
  (login_cases "+1000" "whatever" noHashDB).1 noHashUser rfl rfl

/-! ### C6: `updateProfile` is a full replacement of exactly three fields -/

/-- An account with every profile field populated. -/
def profUser : User :=
  { _id := 5, userName := some "Bob", phone := some "+2",
    email := some "old@x", address := some "Street 1",
    passwordHash := some (.hashed 5 "pw"), avatarURL := some "a.png" }

def profDB : DB := ⟨[profUser], [], 6⟩

/-- C6: `updateProfile` fails `Forbidden` when the conditional update matches
no record; when a record matches, the stored and returned document is the
matched record with exactly `userName`, `email` and `address` overwritten by
the supplied body values — a field absent from the body (`none`) overwrites
with null — and every other field untouched, as the record update in the
conclusion shows. -/
theorem updateProfile_spec (b : ProfileBody) (id : Nat) (db : DB) :
    (db.users.find? (byId id) = none →
        updateProfile (some b) id db =
          (.error (ApiError.forbidden "Modified forbidden"), db)) ∧
    (∀ u, db.users.find? (byId id) = some u →
        (updateProfile (some b) id db).1 =
          .ok ⟨{ u with userName := b.userName, email := b.email,
                        address := b.address },
               "User " ++ jsShow b.userName ++ " successfully updated"⟩ ∧
        { u with userName := b.userName, email := b.email,
                 address := b.address } ∈
          (updateProfile (some b) id db).2.users) := by
  constructor
  · intro h
    have hall : ∀ x ∈ db.users, byId id x = false := fun x hx => by
      simpa using List.find?_eq_none.mp h x hx
    have e := findOneAndUpdate_of_no_match
      (f := fun u => { u with userName := b.userName, email := b.email,
                              address := b.address })
      db.users hall
    simp [updateProfile, e]
  · intro u hu
    obtain ⟨pre, post, hsplit, hpre, hp⟩ := find?_eq_some_split hu
    have e : findOneAndUpdate (byId id)
        (fun v => { v with userName := b.userName, email := b.email,
                           address := b.address }) db.users =
        (some { u with userName := b.userName, email := b.email,
                       address := b.address },
         pre ++ { u with userName := b.userName, email := b.email,
                         address := b.address } :: post) := by
      rw [hsplit]
      exact findOneAndUpdate_split post pre hpre hp
    constructor
    · simp [updateProfile, e]
    · simp [updateProfile, e]

/-- Witness for C6 at a concrete input: replacing the profile of account 5
with a body carrying only `email` nulls out `userName` and `address`,
overwrites `email`, and leaves id, phone, hash and avatar untouched. -/
theorem updateProfile_spec_witness :
    (updateProfile (some ⟨none, some "new@x", none⟩) 5 profDB).1 =
      .ok ⟨{ profUser with userName := none, email := some "new@x",
                           address := none },
           "User " ++ jsShow (none : Option String) ++ " successfully updated"⟩ ∧
    { profUser with userName := none, email := some "new@x",
                    address := none } ∈
      (updateProfile (some ⟨none, some "new@x", none⟩) 5 profDB).2.users :=
  (updateProfile_spec ⟨none, some "new@x", none⟩ 5 profDB).2 profUser rfl

/-! ### C7: issued reset tokens are 32 lowercase hex chars, TTL one hour -/

/-- C7: a reset issued by `resetPassword` for an account matched by email
stores a token that is the hex rendering of the 16 random bytes — 32
characters, all hexadecimal — together with an expiry of exactly the
issuance time plus 3600 seconds (3600000 ms), whatever the mail transport
then does. -/
theorem resetPassword_token_spec (email : String) (now : Int)
    (bytes : List Nat) (mail : Except String MailStatus) (db : DB) (u : User)
    (hlen : bytes.length = 16) (hbytes : ∀ b ∈ bytes, b < 256)
    (hfind : db.users.find? (byEmail email) = some u) :
    (bytesToHex bytes).length = 32 ∧
    (bytesToHex bytes).data.all isHexChar = true ∧
    (resetPassword email now bytes mail db).2.users.find? (byEmail email) =
      some { u with resetToken := some (bytesToHex bytes),
                    resetExpire := some (now + 3600 * 1000) } := by
  refine ⟨?_, ?_, ?_⟩
  · rw [bytesToHex_length, hlen]
  · exact List.all_eq_true.mpr fun c hc =>
      bytesToHexChars_all_hex bytes hbytes c hc
  · obtain ⟨pre, post, hsplit, hpre, hp⟩ := find?_eq_some_split hfind
    have e : findOneAndUpdate (byEmail email)
        (fun v => { v with resetToken := some (bytesToHex bytes),
                           resetExpire := some (now + 3600000) })
        db.users =
        (some { u with resetToken := some (bytesToHex bytes),
                       resetExpire := some (now + 3600000) },
         pre ++ { u with resetToken := some (bytesToHex bytes),
                         resetExpire := some (now + 3600000) } :: post) := by
      rw [hsplit]
      exact findOneAndUpdate_split post pre hpre hp
    have hfind' : (pre ++ { u with resetToken := some (bytesToHex bytes),
                                   resetExpire := some (now + 3600000) }
        :: post).find? (byEmail email) =
        some { u with resetToken := some (bytesToHex bytes),
                      resetExpire := some (now + 3600000) } :=
      find?_split post pre hpre (by simpa [byEmail] using hp)
    cases mail <;> simp [resetPassword, hfind, e, hfind']

/-- The 16 random bytes used by the C7 witness. -/
def sampleBytes : List Nat := List.replicate 16 171

/-- Witness for C7 at a concrete input: a reset for "a@b.com" at time 100
with 16 bytes of 0xab stores token "abab…ab" (32 hex chars) expiring at
100 + 3600000. -/
theorem resetPassword_token_spec_witness :
    (bytesToHex sampleBytes).length = 32 ∧
    (bytesToHex sampleBytes).data.all isHexChar = true ∧
    (resetPassword "a@b.com" 100 sampleBytes
        (.ok ⟨"250 OK", ["a@b.com"]⟩) pendingResetDB).2.users.find?
        (byEmail "a@b.com") =
      some { pendingResetUser with
              resetToken := some (bytesToHex sampleBytes),
              resetExpire := some (100 + 3600 * 1000) } :=
  resetPassword_token_spec "a@b.com" 100 sampleBytes
    (.ok ⟨"250 OK", ["a@b.com"]⟩) pendingResetDB pendingResetUser
    (by decide) (by decide) rfl

/-! ### C8: `updatePassword` rejects an unchanged password via verify -/

/-- An account whose current password is "secret" (hashed with salt 5). -/
def secretUser : User :=
  { _id := 11, phone := some "+3", passwordHash := some (.hashed 5 "secret") }

def secretDB : DB := ⟨[secretUser], [], 12⟩

/-- C8: for an existing account, `updatePassword` with a new password that
still verifies against the stored hash (the check is `bcryptCompare` against
the stored hash, not a hash comparison) fails `BadRequest "The same
password!"` and leaves the store untouched; with a non-verifying new
password it succeeds and commits the freshly hashed password on the
account. -/
theorem updatePassword_spec (pw : String) (id salt : Nat) (db : DB)
    (u : User) (hpw : pw ≠ "") (hfind : db.users.find? (byId id) = some u) :
    (bcryptCompare pw u.passwordHash = true →
        updatePassword pw id salt db =
          (.error (ApiError.badRequest "The same password!"), db)) ∧
    (bcryptCompare pw u.passwordHash = false →
        (updatePassword pw id salt db).1 =
          .ok ⟨true, "User " ++ jsShow u.userName ++ " successfully updated"⟩ ∧
        (updatePassword pw id salt db).2.users.find? (byId id) =
          some { u with passwordHash := some (createPasswordHash salt pw) }) := by
  have hpw' : (pw == "") = false := by simpa using hpw
  constructor
  · intro hsame
    simp [updatePassword, hpw', findUserById, hfind, hsame]
  · intro hdiff
    obtain ⟨pre, post, hsplit, hpre, hp⟩ := find?_eq_some_split hfind
    have e : findOneAndUpdate (byId id)
        (fun v => { v with passwordHash := some (createPasswordHash salt pw) })
        db.users =
        (some { u with passwordHash := some (createPasswordHash salt pw) },
         pre ++ { u with passwordHash := some (createPasswordHash salt pw) }
           :: post) := by
      rw [hsplit]
      exact findOneAndUpdate_split post pre hpre hp
    have hfind' : (pre ++
        { u with passwordHash := some (createPasswordHash salt pw) }
          :: post).find? (byId id) =
        some { u with passwordHash := some (createPasswordHash salt pw) } :=
      find?_split post pre hpre (by simpa [byId] using hp)
    constructor
    · simp [updatePassword, hpw', findUserById, hfind, hdiff, e]
    · simp [updatePassword, hpw', findUserById, hfind, hdiff, e, hfind']

/-- Witness for C8 at two concrete inputs: re-submitting the current password
"secret" fails `BadRequest "The same password!"`, while the different
password "fresh" succeeds and commits its hash. -/
theorem updatePassword_spec_witness :
    updatePassword "secret" 11 9 secretDB =
      (.error (ApiError.badRequest "The same password!"), secretDB) ∧
    (updatePassword "fresh" 11 9 secretDB).1 =
      .ok ⟨true, "User " ++ jsShow (none : Option String) ++
        " successfully updated"⟩ ∧
    (updatePassword "fresh" 11 9 secretDB).2.users.find? (byId 11) =
      some { secretUser with passwordHash := some (createPasswordHash 9 "fresh") } :=
  ⟨(updatePassword_spec "secret" 11 9 secretDB secretUser (by decide) rfl).1 rfl,
   (updatePassword_spec "fresh" 11 9 secretDB secretUser (by decide) rfl).2 rfl⟩

/-! ### C9: `deleteUser` cascades order deletion and removes the account -/

/-- The account deleted by the C9 witness, owning three orders. -/
def delUser : User := { _id := 9, phone := some "+9" }

/-- Its store: account 9 with three orders, plus one order of account 2. -/
def delDB : DB :=
  ⟨[delUser], [⟨1, 9⟩, ⟨2, 9⟩, ⟨3, 9⟩, ⟨4, 2⟩], 10⟩

/-- C9: `deleteUser` on a missing account fails `NotFound` with the store
untouched; on an existing account (with the store's ids unique, as the
`_id` key is) it reports the count of deleted orders referencing the
account together with one deleted user record, every order of the account
is gone from the store, and a subsequent lookup of the account finds
nothing. -/
theorem deleteUser_spec (id : Nat) (db : DB) :
    (db.users.find? (byId id) = none →
        deleteUser id db = (.error (ApiError.notFound "Can't find user"), db)) ∧
    (∀ u, db.users.find? (byId id) = some u →
        (db.users.map User._id).Nodup →
        (deleteUser id db).1 =
          .ok ⟨⟨(db.orders.filter (fun o => o.userId == id)).length⟩, ⟨1⟩⟩ ∧
        (deleteUser id db).2.orders =
          db.orders.filter (fun o => !(o.userId == id)) ∧
        (deleteUser id db).2.users.find? (byId id) = none) := by
  constructor
  · intro h
    simp [deleteUser, findUserById, h]
  · intro u hu hnodup
    obtain ⟨pre, post, hsplit, hpre, hp⟩ := find?_eq_some_split hu
    have edel : deleteOne (byId id) db.users = (1, pre ++ post) := by
      rw [hsplit]
      exact deleteOne_split post pre hpre hp
    have hid : u._id = id := by simpa [byId] using hp
    have hnodup' : (pre.map User._id ++ u._id :: post.map User._id).Nodup := by
      simpa [hsplit] using hnodup
    have hnotin : u._id ∉ post.map User._id :=
      (List.nodup_cons.mp hnodup'.of_append_right).1
    have hpost : ∀ x ∈ post, byId id x = false := by
      intro x hx
      by_contra hbad
      have hxid : x._id = id := by
        have := Bool.of_not_eq_false hbad
        simpa [byId] using this
      exact hnotin (List.mem_map.mpr ⟨x, hx, by rw [hxid, hid]⟩)
    have hnone : (pre ++ post).find? (byId id) = none := by
      refine List.find?_eq_none.mpr ?_
      intro x hx
      rcases List.mem_append.mp hx with hx | hx
      · simp [hpre x hx]
      · simp [hpost x hx]
    refine ⟨?_, ?_, ?_⟩ <;>
      simp [deleteUser, findUserById, hu, deleteMany, edel, hnone]

/-- Witness for C9 at a concrete input: deleting account 9, which owns three
of the four stored orders, reports three deleted orders and one deleted
user, leaves only the foreign order, and a lookup of account 9 then finds
nothing. -/
theorem deleteUser_spec_witness :
    (deleteUser 9 delDB).1 = .ok ⟨⟨3⟩, ⟨1⟩⟩ ∧
    (deleteUser 9 delDB).2.orders = [⟨4, 2⟩] ∧
    (deleteUser 9 delDB).2.users.find? (byId 9) = none := by
  have h := (deleteUser_spec 9 delDB).2 delUser rfl (by decide)
  exact ⟨h.1, h.2.1, h.2.2⟩

end Coffeedoor
